import Mathlib

/-!
Verification of the node-server-key-generator repository: a shallow embedding
of its two provisioners (`generate-tls-certs.js` and `generate-jwk.js`) and
proofs about the artifact contract they implement.

Conventions of the embedding:
* Pure string manipulation (the OpenSSL configuration template, the kid
  derivation) is translated directly from the source.
* The external toolchain (`openssl` subprocesses) is an environment parameter
  `String → Except String String` (command text to error-or-stdout); the file
  effect of a command is the file named by its `-out` flag, per the spec's
  external-interface contract.
* The `jose` library boundary (`exportJWK`, `exportPKCS8`) is a parameter: runs
  are quantified over the exported JWK field maps, per the spec's description
  of the library boundary.
* The `crypto` library's `createHash('sha256').update(s).digest('base64url')`
  is modelled by an executable SHA-256 over the UTF-8 bytes of `s` followed by
  unpadded URL-safe base64, as the spec states.
* Filesystem writes are collected as (directory, filename) pairs; `console.error`
  lines are collected as a log list; `process.exit(1)` is an exit code.
-/

set_option maxRecDepth 20000

/-! ## Byte-level utilities: UTF-8, SHA-256, base64url -/

/-- Truncation to a 32-bit word. -/
def w32 (x : Nat) : Nat := x % 4294967296

/-- Right rotation of a 32-bit word by `n` bits. -/
def rotr (n x : Nat) : Nat := (x >>> n) + (x % (2 ^ n)) * 2 ^ (32 - n)

/-- SHA-256 choice function (operands already reduced mod 2^32). -/
def sha2ch (e f g : Nat) : Nat := (e &&& f) ^^^ ((4294967295 - e) &&& g)

/-- SHA-256 majority function. -/
def sha2maj (a b c : Nat) : Nat := (a &&& b) ^^^ (a &&& c) ^^^ (b &&& c)

/-- SHA-256 big sigma 0. -/
def bsig0 (x : Nat) : Nat := rotr 2 x ^^^ rotr 13 x ^^^ rotr 22 x

/-- SHA-256 big sigma 1. -/
def bsig1 (x : Nat) : Nat := rotr 6 x ^^^ rotr 11 x ^^^ rotr 25 x

/-- SHA-256 small sigma 0. -/
def ssig0 (x : Nat) : Nat := rotr 7 x ^^^ rotr 18 x ^^^ (x >>> 3)

/-- SHA-256 small sigma 1. -/
def ssig1 (x : Nat) : Nat := rotr 17 x ^^^ rotr 19 x ^^^ (x >>> 10)

/-- The 64 SHA-256 round constants of FIPS 180-4, in decimal. -/
def kConst : List Nat :=
  [1116352408, 1899447441, 3049323471, 3921009573, 961987163, 1508970993,
   2453635748, 2870763221, 3624381080, 310598401, 607225278, 1426881987,
   1925078388, 2162078206, 2614888103, 3248222580, 3835390401, 4022224774,
   264347078, 604807628, 770255983, 1249150122, 1555081692, 1996064986,
   2554220882, 2821834349, 2952996808, 3210313671, 3336571891, 3584528711,
   113926993, 338241895, 666307205, 773529912, 1294757372, 1396182291,
   1695183700, 1986661051, 2177026350, 2456956037, 2730485921, 2820302411,
   3259730800, 3345764771, 3516065817, 3600352804, 4094571909, 275423344,
   430227734, 506948616, 659060556, 883997877, 958139571, 1322822218,
   1537002063, 1747873779, 1955562222, 2024104815, 2227730452, 2361852424,
   2428436474, 2756734187, 3204031479, 3329325298]

/-- Running hash state: eight 32-bit words. -/
structure Hash8 where
  a : Nat
  b : Nat
  c : Nat
  d : Nat
  e : Nat
  f : Nat
  g : Nat
  h : Nat
deriving DecidableEq

/-- SHA-256 initial hash value of FIPS 180-4, in decimal. -/
def initH : Hash8 :=
  ⟨1779033703, 3144134277, 1013904242, 2773480762, 1359893119, 2600822924, 528734635, 1541459225⟩

/-- One SHA-256 compression round. -/
def roundStep (s : Hash8) (k wt : Nat) : Hash8 :=
  let t1 := w32 (s.h + bsig1 s.e + sha2ch s.e s.f s.g + k + wt)
  let t2 := w32 (bsig0 s.a + sha2maj s.a s.b s.c)
  ⟨w32 (t1 + t2), s.a, s.b, s.c, w32 (s.d + t1), s.e, s.f, s.g⟩

/-- Compress one 64-byte block into the running hash. -/
def compressBlock (block : List Nat) (hs : Hash8) : Hash8 :=
  let w16 := (List.range 16).map fun i =>
    block.getD (4 * i) 0 * 16777216 + block.getD (4 * i + 1) 0 * 65536 +
      block.getD (4 * i + 2) 0 * 256 + block.getD (4 * i + 3) 0
  let w := (List.range 48).foldl
    (fun acc _ => acc ++ [w32 (ssig1 (acc.getD (acc.length - 2) 0) + acc.getD (acc.length - 7) 0 +
      ssig0 (acc.getD (acc.length - 15) 0) + acc.getD (acc.length - 16) 0)]) w16
  let s := (List.range 64).foldl (fun st t => roundStep st (kConst.getD t 0) (w.getD t 0)) hs
  ⟨w32 (hs.a + s.a), w32 (hs.b + s.b), w32 (hs.c + s.c), w32 (hs.d + s.d),
   w32 (hs.e + s.e), w32 (hs.f + s.f), w32 (hs.g + s.g), w32 (hs.h + s.h)⟩

/-- Fold the 64-byte blocks of a padded message into the hash; the first
argument is fuel, called with the message length (an upper bound on the
number of blocks). -/
def processChunks : Nat → List Nat → Hash8 → Hash8
  | 0, _, hs => hs
  | _ + 1, [], hs => hs
  | n + 1, l, hs => processChunks n (l.drop 64) (compressBlock (l.take 64) hs)

/-- Big-endian 8-byte encoding of a (64-bit) length value. -/
def lenBytes8 (n : Nat) : List Nat :=
  [(n >>> 56) % 256, (n >>> 48) % 256, (n >>> 40) % 256, (n >>> 32) % 256,
   (n >>> 24) % 256, (n >>> 16) % 256, (n >>> 8) % 256, n % 256]

/-- SHA-256 message padding: 0x80, zeros to 56 mod 64, 8-byte bit length. -/
def padMessage (m : List Nat) : List Nat :=
  m ++ [128] ++ List.replicate ((119 - m.length % 64) % 64) 0 ++ lenBytes8 (m.length * 8)

/-- Big-endian bytes of one 32-bit word. -/
def wordBytes (w : Nat) : List Nat :=
  [(w >>> 24) % 256, (w >>> 16) % 256, (w >>> 8) % 256, w % 256]

/-- The 32 digest bytes of a final hash state. -/
def digestWords (s : Hash8) : List Nat :=
  wordBytes s.a ++ wordBytes s.b ++ wordBytes s.c ++ wordBytes s.d ++
    wordBytes s.e ++ wordBytes s.f ++ wordBytes s.g ++ wordBytes s.h

/-- SHA-256 of a byte list. -/
def sha256 (m : List Nat) : List Nat :=
  let p := padMessage m
  digestWords (processChunks p.length p initH)

/-- UTF-8 bytes of one character. -/
def utf8Char (c : Char) : List Nat :=
  let n := c.toNat
  if n < 128 then [n]
  else if n < 2048 then [192 + n / 64, 128 + n % 64]
  else if n < 65536 then [224 + n / 4096, 128 + (n / 64) % 64, 128 + n % 64]
  else [240 + n / 262144, 128 + (n / 4096) % 64, 128 + (n / 64) % 64, 128 + n % 64]

/-- UTF-8 bytes of a string (Node's default encoding for `hash.update`). -/
def utf8Encode (s : String) : List Nat := (s.data.map utf8Char).flatten

/-- The URL-safe base64 alphabet. -/
def b64Alphabet : List Char :=
  "ABCDEFGHIJKLMNOPQRSTUVWXYZabcdefghijklmnopqrstuvwxyz0123456789-_".data

/-- Character for a 6-bit group. -/
def b64Chr (n : Nat) : Char := b64Alphabet.getD n 'A'

/-- URL-safe base64 characters of a byte list, without padding. -/
def b64Rec : List Nat → List Char
  | [] => []
  | [b] => [b64Chr (b / 4), b64Chr (b % 4 * 16)]
  | [b, c] => [b64Chr (b / 4), b64Chr (b % 4 * 16 + c / 16), b64Chr (c % 16 * 4)]
  | b :: c :: d :: rest =>
    b64Chr (b / 4) :: b64Chr (b % 4 * 16 + c / 16) :: b64Chr (c % 16 * 4 + d / 64) ::
      b64Chr (d % 64) :: b64Rec rest

/-- Unpadded URL-safe base64 of a byte list (Node's `'base64url'` digest). -/
def base64urlNoPad (bs : List Nat) : String := String.mk (b64Rec bs)

example : sha256 (utf8Encode "abc") =
    [0xba, 0x78, 0x16, 0xbf, 0x8f, 0x01, 0xcf, 0xea, 0x41, 0x41, 0x40, 0xde, 0x5d, 0xae, 0x22,
     0x23, 0xb0, 0x03, 0x61, 0xa3, 0x96, 0x17, 0x7a, 0x9c, 0xb4, 0x10, 0xff, 0x61, 0xf2, 0x00,
     0x15, 0xad] := by decide

example : base64urlNoPad (sha256 (utf8Encode "abc")) =
    "ungWv48Bz-pBQUDeXa4iI7ADYaOWF3qctBD_YfIAFa0" := by decide

/-! ## Generic string and line helpers -/

/-- `(s ++ t).data` is the concatenation of the character lists. -/
theorem strDataAppend (s t : String) : (s ++ t).data = s.data ++ t.data := by
  cases s; cases t; rfl

/-- Strings with the same characters are equal. -/
theorem strExt {s t : String} (h : s.data = t.data) : s = t :=
  congrArg String.mk h

/-- Split a character list at newlines (the empty list yields one empty line). -/
def splitLines : List Char → List (List Char)
  | [] => [[]]
  | c :: cs =>
    if c = '\n' then [] :: splitLines cs
    else
      match splitLines cs with
      | [] => [[c]]
      | l :: ls => (c :: l) :: ls

/-- Join lines, terminating each with a newline. -/
def joinLines (ls : List (List Char)) : List Char :=
  ls.foldr (fun l acc => l ++ '\n' :: acc) []

/-- Splitting a newline-free line off the front. -/
theorem splitLines_line (l rest : List Char) (h : '\n' ∉ l) :
    splitLines (l ++ '\n' :: rest) = l :: splitLines rest := by
  induction l with
  | nil => simp [splitLines]
  | cons c t ih =>
    have hc : c ≠ '\n' := fun hce => h (hce ▸ List.mem_cons_self c t)
    have ht : '\n' ∉ t := fun hm => h (List.mem_cons_of_mem c hm)
    simp only [List.cons_append, splitLines, if_neg hc, List.append_eq, ih ht]

/-- Splitting the join of newline-free lines recovers the lines (plus the
empty trailing segment). -/
theorem splitLines_join (ls : List (List Char)) (h : ∀ l ∈ ls, '\n' ∉ l) :
    splitLines (joinLines ls) = ls ++ [[]] := by
  induction ls with
  | nil => simp [joinLines, splitLines]
  | cons l t ih =>
    have hl : '\n' ∉ l := h l (List.mem_cons_self l t)
    have ht : ∀ x ∈ t, '\n' ∉ x := fun x hx => h x (List.mem_cons_of_mem l hx)
    simp only [joinLines, List.foldr_cons]
    rw [splitLines_line l _ hl]
    simpa [joinLines] using congrArg (List.cons l) (ih ht)

/-- Does the second list start with the first? -/
def leadsWith : List Char → List Char → Bool
  | [], _ => true
  | _ :: _, [] => false
  | p :: ps, c :: cs => p = c && leadsWith ps cs

/-- The remainder after the first occurrence of `pat`, if it occurs. -/
def afterSub (pat : List Char) : List Char → Option (List Char)
  | [] => if leadsWith pat [] then some [] else none
  | c :: t => if leadsWith pat (c :: t) then some ((c :: t).drop pat.length) else afterSub pat t

/-- Does `pat` occur in the list? -/
def containsSub (pat l : List Char) : Bool := (afterSub pat l).isSome

/-- Head characters differ, so a cons is not another cons. -/
theorem ne_of_head {a b : Char} (l m : List Char) (h : a ≠ b) : a :: l ≠ b :: m := by
  intro he
  injection he with h1 _
  exact h h1

/-- Cancel a common left factor of character lists. -/
theorem app_cancel_left : ∀ (a b c : List Char), a ++ b = a ++ c → b = c := by
  intro a
  induction a with
  | nil => simp
  | cons x t ih => intro b c h; simp only [List.cons_append, List.cons.injEq] at h; exact ih b c h.2

/-- Cancel a common right factor of character lists. -/
theorem app_cancel_right (a c r : List Char) (h : a ++ r = c ++ r) : a = c := by
  have hl : a.length = c.length := by
    have := congrArg List.length h
    simp only [List.length_append] at this
    omega
  exact (List.append_inj h hl).1

/-! ## Embedding of `generate-jwk.js` -/

/-- A JWK as an ordered field map (a JavaScript object's string fields). -/
def Jwk : Type := List (String × String)

instance : DecidableEq Jwk := by unfold Jwk; infer_instance

/-- First-match field lookup of a JavaScript object. -/
def jwkLookup : Jwk → String → Option String
  | [], _ => none
  | (k', v) :: rest, k => if k' = k then some v else jwkLookup rest k

/-- Reading a field in a JS template literal: a missing field prints as
`undefined`. -/
def jwkGet (j : Jwk) (k : String) : String := (jwkLookup j k).getD "undefined"

/-- JS property assignment: overwrite the field in place, or append it. -/
def setField : Jwk → String → String → Jwk
  | [], k, v => [(k, v)]
  | (k', v') :: rest, k, v => if k' = k then (k, v) :: rest else (k', v') :: setField rest k v

/-- The hash input `generateKid` builds:
`` `${jwk.kty}-${jwk.crv}-${jwk.x}-${jwk.y}` ``. -/
def kidInput (kty crv x y : String) : String :=
  kty ++ "-" ++ crv ++ "-" ++ x ++ "-" ++ y

/-- kid derivation from the four public components:
`createHash('sha256').update(input).digest('base64url')`. -/
def kidOf (kty crv x y : String) : String :=
  base64urlNoPad (sha256 (utf8Encode (kidInput kty crv x y)))

/-- `generateKid` from `generate-jwk.js`: hash of the dash-joined key type,
curve and coordinates, in unpadded URL-safe base64. -/
def generateKid (jwk : Jwk) : String :=
  kidOf (jwkGet jwk "kty") (jwkGet jwk "crv") (jwkGet jwk "x") (jwkGet jwk "y")

/-- `path.join(base, p)` as used for the output paths. -/
def pathJoin (base p : String) : String := base ++ "/" ++ p

/-- `path.resolve(base, p)`: `p` itself when absolute, else under `base`. -/
def pathResolve (base p : String) : String :=
  if p.data.head? = some '/' then p else base ++ "/" ++ p

/-- Outcome of a `generateJWKKeyPair` run: the kid, the JWKS file's `keys`
array, the private JWK, the PEM text, and the files written. -/
structure JwkOutcome where
  kid : String
  jwksKeys : List Jwk
  privateJwk : Jwk
  pem : String
  files : List (String × String)
deriving DecidableEq

/-- `generateJWKKeyPair` from `generate-jwk.js`, parametrised by the `jose`
library outputs (`exportJWK(publicKey)`, `exportJWK(privateKey)`,
`exportPKCS8(privateKey)`). The output directory is the hard-coded
`join(__dirname, 'keys')`; the JWKS file holds `{ keys: [publicJwk] }` and the
PEM file the private key, after kid/alg/use are attached to both JWKs. -/
def runJWK (dirname : String) (pubExport privExport : Jwk) (pemExport : String) : JwkOutcome :=
  let kid := generateKid pubExport
  let publicJwk := setField (setField (setField pubExport "kid" kid) "alg" "ES256") "use" "sig"
  let privateJwk := setField (setField (setField privExport "kid" kid) "alg" "ES256") "use" "sig"
  ⟨kid, [publicJwk], privateJwk, pemExport,
   [(pathJoin dirname "keys", "jwks.json"), (pathJoin dirname "keys", "jwks-private-key.pem")]⟩

/-- `setField` leaves other fields' lookups unchanged. -/
theorem jwkLookup_setField_ne (j : Jwk) (k v k' : String) (h : k ≠ k') :
    jwkLookup (setField j k v) k' = jwkLookup j k' := by
  induction j with
  | nil => simp [setField, jwkLookup, h]
  | cons p rest ih =>
    obtain ⟨pk, pv⟩ := p
    by_cases hp : pk = k
    · subst hp
      simp [setField, jwkLookup, h]
    · simp [setField, hp, jwkLookup, ih]

/-! ## Embedding of `generate-tls-certs.js` -/

/-- `generateOpenSSLConfig` from `generate-tls-certs.js`: the template literal
with `CN`, `SAN_DNS`, `SAN_IP` interpolated as given. -/
def generateOpenSSLConfig (cn san_dns san_ip : String) : String :=
  "[req]\ndistinguished_name = req_distinguished_name\nx509_extensions = v3_req\nprompt = no\n\n[req_distinguished_name]\nCN = "
    ++ cn
    ++ "\n\n[v3_req]\nbasicConstraints = CA:FALSE\nkeyUsage = digitalSignature, keyEncipherment\nextendedKeyUsage = serverAuth, clientAuth\nsubjectAltName = @alt_names\n\n[alt_names]\nDNS.1 = "
    ++ cn
    ++ "\nDNS.2 = "
    ++ san_dns
    ++ "\nIP.1 = "
    ++ san_ip
    ++ "\n"

/-- Drop lines up to and including the first line equal to the section
header `hdr`; the empty list when the header does not occur. -/
def dropToHeader (hdr : List Char) : List (List Char) → List (List Char)
  | [] => []
  | l :: ls => if l = hdr then ls else dropToHeader hdr ls

/-- The lines of an ini-like section body: lines up to the next section
header (a line starting with `[`). -/
def takeBody : List (List Char) → List (List Char)
  | [] => []
  | l :: ls => if l.head? = some '[' then [] else l :: takeBody ls

/-- The non-empty entry lines of a section from a list of lines. -/
def sectionEntriesOf (hdr : List Char) (lines : List (List Char)) : List (List Char) :=
  (takeBody (dropToHeader hdr lines)).filter (fun l => !l.isEmpty)

/-- The non-empty entry lines of a section of a configuration text. -/
def sectionEntries (hdr : List Char) (s : String) : List (List Char) :=
  sectionEntriesOf hdr (splitLines s.data)

/-- The `[alt_names]` entries of a configuration text. -/
def altNamesEntries (s : String) : List (List Char) := sectionEntries "[alt_names]".data s

/-- The `[v3_req]` entries of a configuration text. -/
def v3ReqEntries (s : String) : List (List Char) := sectionEntries "[v3_req]".data s

/-- `openssl genrsa -out tls-ca-key.pem 4096` (`CA_KEY_SIZE = 4096`). -/
def tlsCmdGenCaKey : String := "openssl genrsa -out tls-ca-key.pem 4096"

/-- The CA self-signing command (`CA_VALIDITY_DAYS = 3650`, fixed subject). -/
def tlsCmdGenCaCert : String :=
  "openssl req -x509 -new -key tls-ca-key.pem -sha256 -days 3650 -out tls-ca-cert.pem -subj \"/CN=internal-ca\""

/-- `openssl rand -base64 16` (`PASSPHRASE_LENGTH = 16`). -/
def tlsCmdRand : String := "openssl rand -base64 16"

/-- The encrypted service-key generation command (`SERVICE_KEY_SIZE = 2048`). -/
def tlsCmdGenServiceKey (passphrase : String) : String :=
  "openssl genrsa -aes256 -passout pass:" ++ passphrase ++ " -out tls-shared-key.pem 2048"

/-- The CSR creation command. -/
def tlsCmdCsr (cn passphrase : String) : String :=
  "openssl req -new -key tls-shared-key.pem -out tls-shared.csr -subj \"/CN=" ++ cn
    ++ "\" -passin pass:" ++ passphrase ++ " -config openssl.cnf"

/-- The CA signing command (`SERVICE_VALIDITY_DAYS = 825`). -/
def tlsCmdSign : String :=
  "openssl x509 -req -in tls-shared.csr -CA tls-ca-cert.pem -CAkey tls-ca-key.pem -CAcreateserial -out tls-shared-cert.pem -days 825 -sha256 -extfile openssl.cnf -extensions v3_req"

/-- Outcome of a `generateTLSCertificates` run: the commands invoked in order,
the `console.error` lines, the files written as (directory, name) pairs, the
final working directory, and `some 1` when the process exited via
`process.exit(1)`. -/
structure TlsOutcome where
  cmds : List String
  logs : List String
  files : List (String × String)
  cnf : Option String
  cwd : String
  exit : Option Nat
deriving DecidableEq

/-- `generateTLSCertificates` from `generate-tls-certs.js`, parametrised by
the toolchain environment `exec` (command text to error message or stdout) and
the four environment variables. Filesystem operations (`mkdirSync`,
`writeFileSync`, `chdir`) are modelled as succeeding; a command writes the
file named by its `-out` flag when it succeeds. `executeCommand` failures log
`❌ Failed to <description>: <message>` and re-throw; the raw `execSync` for
the passphrase throws directly; the outer catch logs
`❌ Error generating TLS certificates: <message>` and exits 1 before the
working directory is restored. -/
def runTLS (dirname origDir : String) (exec : String → Except String String)
    (envKeyDir envCN envSanDns envSanIp : Option String) : TlsOutcome :=
  let keyDir := envKeyDir.getD "keys"
  let cn := envCN.getD "internal-service"
  let sanDns := envSanDns.getD "localhost"
  let sanIp := envSanIp.getD "127.0.0.1"
  let keyDirPath := pathResolve dirname keyDir
  let fail (cmds : List String) (files : List (String × String)) (cnf : Option String)
      (logs : List String) (e : String) : TlsOutcome :=
    ⟨cmds, logs ++ ["❌ Error generating TLS certificates: " ++ e], files, cnf, keyDirPath, some 1⟩
  match exec tlsCmdGenCaKey with
  | .error e => fail [tlsCmdGenCaKey] [] none ["❌ Failed to generate CA private key: " ++ e] e
  | .ok _ =>
  match exec tlsCmdGenCaCert with
  | .error e =>
    fail [tlsCmdGenCaKey, tlsCmdGenCaCert] [(keyDirPath, "tls-ca-key.pem")] none
      ["❌ Failed to generate CA certificate: " ++ e] e
  | .ok _ =>
  match exec tlsCmdRand with
  | .error e =>
    fail [tlsCmdGenCaKey, tlsCmdGenCaCert, tlsCmdRand]
      [(keyDirPath, "tls-ca-key.pem"), (keyDirPath, "tls-ca-cert.pem")] none [] e
  | .ok randOut =>
  let passphrase := randOut.trim
  match exec (tlsCmdGenServiceKey passphrase) with
  | .error e =>
    fail [tlsCmdGenCaKey, tlsCmdGenCaCert, tlsCmdRand, tlsCmdGenServiceKey passphrase]
      [(keyDirPath, "tls-ca-key.pem"), (keyDirPath, "tls-ca-cert.pem"),
       (keyDirPath, "tls-shared-key-passphrase.txt")] none
      ["❌ Failed to generate encrypted service private key: " ++ e] e
  | .ok _ =>
  match exec (tlsCmdCsr cn passphrase) with
  | .error e =>
    fail [tlsCmdGenCaKey, tlsCmdGenCaCert, tlsCmdRand, tlsCmdGenServiceKey passphrase,
          tlsCmdCsr cn passphrase]
      [(keyDirPath, "tls-ca-key.pem"), (keyDirPath, "tls-ca-cert.pem"),
       (keyDirPath, "tls-shared-key-passphrase.txt"), (keyDirPath, "tls-shared-key.pem"),
       (keyDirPath, "openssl.cnf")] (some (generateOpenSSLConfig cn sanDns sanIp))
      ["❌ Failed to create certificate signing request: " ++ e] e
  | .ok _ =>
  match exec tlsCmdSign with
  | .error e =>
    fail [tlsCmdGenCaKey, tlsCmdGenCaCert, tlsCmdRand, tlsCmdGenServiceKey passphrase,
          tlsCmdCsr cn passphrase, tlsCmdSign]
      [(keyDirPath, "tls-ca-key.pem"), (keyDirPath, "tls-ca-cert.pem"),
       (keyDirPath, "tls-shared-key-passphrase.txt"), (keyDirPath, "tls-shared-key.pem"),
       (keyDirPath, "openssl.cnf"), (keyDirPath, "tls-shared.csr")]
      (some (generateOpenSSLConfig cn sanDns sanIp))
      ["❌ Failed to sign service certificate: " ++ e] e
  | .ok _ =>
    ⟨[tlsCmdGenCaKey, tlsCmdGenCaCert, tlsCmdRand, tlsCmdGenServiceKey passphrase,
      tlsCmdCsr cn passphrase, tlsCmdSign],
     [],
     [(keyDirPath, "tls-ca-key.pem"), (keyDirPath, "tls-ca-cert.pem"),
      (keyDirPath, "tls-shared-key-passphrase.txt"), (keyDirPath, "tls-shared-key.pem"),
      (keyDirPath, "openssl.cnf"), (keyDirPath, "tls-shared.csr"),
      (keyDirPath, "tls-shared-cert.pem")],
     some (generateOpenSSLConfig cn sanDns sanIp), origDir, none⟩

/-- The service certificate's Common Name: the `CN` environment variable with
its default. -/
def serviceCommonName (envCN : Option String) : String := envCN.getD "internal-service"

/-- The `/CN=...` value of a command's `-subj` argument. -/
def extractSubjCN (cmd : String) : Option String :=
  (afterSub "/CN=".data cmd.data).map fun l => String.mk (l.takeWhile (fun c => c ≠ '"'))

example : extractSubjCN tlsCmdGenCaCert = some "internal-ca" := by decide

example : extractSubjCN (tlsCmdCsr "svc.internal" "p") = some "svc.internal" := by decide

/-! ## Line structure of the generated OpenSSL configuration -/

/-- A newline is in neither part, so not in the concatenation. -/
theorem nl_not_mem_append {p t : List Char} (hp : '\n' ∉ p) (ht : '\n' ∉ t) :
    '\n' ∉ p ++ t := by
  intro hm
  rcases List.mem_append.mp hm with h | h
  · exact hp h
  · exact ht h

/-- The configuration text, decomposed into its newline-terminated lines
(interpolated values stay in their line). -/
theorem generateOpenSSLConfig_data (cn sd si : String) :
    (generateOpenSSLConfig cn sd si).data =
      joinLines
        ["[req]".data,
         "distinguished_name = req_distinguished_name".data,
         "x509_extensions = v3_req".data,
         "prompt = no".data,
         [],
         "[req_distinguished_name]".data,
         "CN = ".data ++ cn.data,
         [],
         "[v3_req]".data,
         "basicConstraints = CA:FALSE".data,
         "keyUsage = digitalSignature, keyEncipherment".data,
         "extendedKeyUsage = serverAuth, clientAuth".data,
         "subjectAltName = @alt_names".data,
         [],
         "[alt_names]".data,
         "DNS.1 = ".data ++ cn.data,
         "DNS.2 = ".data ++ sd.data,
         "IP.1 = ".data ++ si.data] := by
  have h1 : ("[req]\ndistinguished_name = req_distinguished_name\nx509_extensions = v3_req\nprompt = no\n\n[req_distinguished_name]\nCN = ").data
      = "[req]".data ++ '\n' :: ("distinguished_name = req_distinguished_name".data ++ '\n' ::
        ("x509_extensions = v3_req".data ++ '\n' :: ("prompt = no".data ++ '\n' :: '\n' ::
        ("[req_distinguished_name]".data ++ '\n' :: "CN = ".data)))) := by decide
  have h2 : ("\n\n[v3_req]\nbasicConstraints = CA:FALSE\nkeyUsage = digitalSignature, keyEncipherment\nextendedKeyUsage = serverAuth, clientAuth\nsubjectAltName = @alt_names\n\n[alt_names]\nDNS.1 = ").data
      = '\n' :: '\n' :: ("[v3_req]".data ++ '\n' :: ("basicConstraints = CA:FALSE".data ++ '\n' ::
        ("keyUsage = digitalSignature, keyEncipherment".data ++ '\n' ::
        ("extendedKeyUsage = serverAuth, clientAuth".data ++ '\n' ::
        ("subjectAltName = @alt_names".data ++ '\n' :: '\n' ::
        ("[alt_names]".data ++ '\n' :: "DNS.1 = ".data)))))) := by decide
  have h3 : ("\nDNS.2 = ").data = '\n' :: "DNS.2 = ".data := by decide
  have h4 : ("\nIP.1 = ").data = '\n' :: "IP.1 = ".data := by decide
  have h5 : ("\n").data = ['\n'] := by decide
  simp only [generateOpenSSLConfig, strDataAppend, h1, h2, h3, h4, h5, joinLines,
    List.foldr_cons, List.foldr_nil, List.append_assoc, List.cons_append, List.nil_append,
    List.append_nil]

/-- The lines of the configuration, when the interpolated values contain no
newline: the eighteen template lines plus the empty trailing segment. -/
theorem generateOpenSSLConfig_lines (cn sd si : String)
    (hcn : '\n' ∉ cn.data) (hsd : '\n' ∉ sd.data) (hsi : '\n' ∉ si.data) :
    splitLines (generateOpenSSLConfig cn sd si).data =
      ["[req]".data,
       "distinguished_name = req_distinguished_name".data,
       "x509_extensions = v3_req".data,
       "prompt = no".data,
       [],
       "[req_distinguished_name]".data,
       "CN = ".data ++ cn.data,
       [],
       "[v3_req]".data,
       "basicConstraints = CA:FALSE".data,
       "keyUsage = digitalSignature, keyEncipherment".data,
       "extendedKeyUsage = serverAuth, clientAuth".data,
       "subjectAltName = @alt_names".data,
       [],
       "[alt_names]".data,
       "DNS.1 = ".data ++ cn.data,
       "DNS.2 = ".data ++ sd.data,
       "IP.1 = ".data ++ si.data, []] := by
  rw [generateOpenSSLConfig_data, splitLines_join]
  · rfl
  · intro l hl
    simp only [List.mem_cons, List.not_mem_nil, or_false] at hl
    rcases hl with rfl | rfl | rfl | rfl | rfl | rfl | rfl | rfl | rfl | rfl | rfl | rfl | rfl |
      rfl | rfl | rfl | rfl | rfl
    all_goals first
      | decide
      | exact nl_not_mem_append (by decide) hcn
      | exact nl_not_mem_append (by decide) hsd
      | exact nl_not_mem_append (by decide) hsi

/-- Extracting the `[alt_names]` section from the template's line list:
only the three interpolated SAN lines survive, for any line contents that
are not themselves a header and not empty. -/
theorem altNames_of_lines (lcn l16 l17 l18 : List Char)
    (hcn : lcn ≠ "[alt_names]".data)
    (h16 : l16.head? ≠ some '[') (h17 : l17.head? ≠ some '[') (h18 : l18.head? ≠ some '[')
    (e16 : l16.isEmpty = false) (e17 : l17.isEmpty = false) (e18 : l18.isEmpty = false) :
    sectionEntriesOf "[alt_names]".data
      ["[req]".data,
       "distinguished_name = req_distinguished_name".data,
       "x509_extensions = v3_req".data,
       "prompt = no".data,
       [],
       "[req_distinguished_name]".data,
       lcn,
       [],
       "[v3_req]".data,
       "basicConstraints = CA:FALSE".data,
       "keyUsage = digitalSignature, keyEncipherment".data,
       "extendedKeyUsage = serverAuth, clientAuth".data,
       "subjectAltName = @alt_names".data,
       [],
       "[alt_names]".data,
       l16, l17, l18, []] = [l16, l17, l18] := by
  simp +decide [sectionEntriesOf, dropToHeader, takeBody, hcn, h16, h17, h18, e16, e17, e18]

/-- Extracting the `[v3_req]` section from the template's line list: the four
fixed extension lines, for any interpolated CN line that is not a header. -/
theorem v3Req_of_lines (lcn l16 l17 l18 : List Char)
    (hcn : lcn ≠ "[v3_req]".data) :
    sectionEntriesOf "[v3_req]".data
      ["[req]".data,
       "distinguished_name = req_distinguished_name".data,
       "x509_extensions = v3_req".data,
       "prompt = no".data,
       [],
       "[req_distinguished_name]".data,
       lcn,
       [],
       "[v3_req]".data,
       "basicConstraints = CA:FALSE".data,
       "keyUsage = digitalSignature, keyEncipherment".data,
       "extendedKeyUsage = serverAuth, clientAuth".data,
       "subjectAltName = @alt_names".data,
       [],
       "[alt_names]".data,
       l16, l17, l18, []] =
      ["basicConstraints = CA:FALSE".data,
       "keyUsage = digitalSignature, keyEncipherment".data,
       "extendedKeyUsage = serverAuth, clientAuth".data,
       "subjectAltName = @alt_names".data] := by
  simp +decide [sectionEntriesOf, dropToHeader, takeBody, hcn]

/-- A line with a concrete non-`[` head prefixed to anything does not start a
section and is not empty. -/
theorem head_of_lit_append (c : Char) (p t : List Char) (hp : p = c :: p.tail) :
    (p ++ t).head? = some c ∧ (p ++ t).isEmpty = false := by
  rw [hp]
  exact ⟨rfl, rfl⟩

/-! ## Digest arithmetic for the kid collision argument -/

/-- Little-endian base-256 value of a byte list. -/
def natOfBytes : List Nat → Nat
  | [] => 0
  | b :: t => b + 256 * natOfBytes t

/-- A bounded byte list's value is below `256 ^ length`. -/
theorem natOfBytes_lt (l : List Nat) (h : ∀ b ∈ l, b < 256) :
    natOfBytes l < 256 ^ l.length := by
  induction l with
  | nil => simp [natOfBytes]
  | cons b t ih =>
    have hb : b < 256 := h b (List.mem_cons_self b t)
    have ht := ih fun x hx => h x (List.mem_cons_of_mem b hx)
    simp only [natOfBytes, List.length_cons, pow_succ]
    omega

/-- `natOfBytes` is injective on bounded byte lists of equal length. -/
theorem natOfBytes_inj (l1 : List Nat) : ∀ l2 : List Nat, (∀ b ∈ l1, b < 256) →
    (∀ b ∈ l2, b < 256) → l1.length = l2.length → natOfBytes l1 = natOfBytes l2 → l1 = l2 := by
  induction l1 with
  | nil =>
    intro l2 _ _ hl _
    cases l2 with
    | nil => rfl
    | cons c u => simp at hl
  | cons b t ih =>
    intro l2 h1 h2 hl he
    cases l2 with
    | nil => simp at hl
    | cons c u =>
      have hb : b < 256 := h1 b (List.mem_cons_self b t)
      have hc : c < 256 := h2 c (List.mem_cons_self c u)
      simp only [natOfBytes] at he
      have hbc : b = c := by omega
      subst hbc
      have ht : natOfBytes t = natOfBytes u := by omega
      rw [ih u (fun x hx => h1 x (List.mem_cons_of_mem b hx))
        (fun x hx => h2 x (List.mem_cons_of_mem b hx)) (by simpa using hl) ht]

/-- Every byte of a word's big-endian encoding is below 256. -/
theorem wordBytes_lt (w : Nat) : ∀ b ∈ wordBytes w, b < 256 := by
  intro b hb
  simp only [wordBytes, List.mem_cons, List.not_mem_nil, or_false] at hb
  rcases hb with rfl | rfl | rfl | rfl <;> exact Nat.mod_lt _ (by norm_num)

/-- Every digest byte is below 256. -/
theorem digestWords_lt (s : Hash8) : ∀ b ∈ digestWords s, b < 256 := by
  intro b hb
  unfold digestWords at hb
  simp only [List.mem_append] at hb
  rcases hb with ((((((h | h) | h) | h) | h) | h) | h) | h <;> exact wordBytes_lt _ b h

/-- A digest has 32 bytes. -/
theorem digestWords_length (s : Hash8) : (digestWords s).length = 32 := rfl

/-- Every SHA-256 output byte is below 256. -/
theorem sha256_lt (m : List Nat) : ∀ b ∈ sha256 m, b < 256 := by
  unfold sha256
  exact digestWords_lt _

/-- SHA-256 outputs 32 bytes. -/
theorem sha256_length (m : List Nat) : (sha256 m).length = 32 := by
  unfold sha256
  exact digestWords_length _

/-- The digest as a value below `256 ^ 32`. -/
def digestFin (m : List Nat) : Fin (256 ^ 32) :=
  ⟨natOfBytes (sha256 m), by
    have h := natOfBytes_lt (sha256 m) (sha256_lt m)
    rwa [sha256_length] at h⟩

/-- Equal digest values give equal digests. -/
theorem sha256_eq_of_digestFin_eq {m1 m2 : List Nat} (h : digestFin m1 = digestFin m2) :
    sha256 m1 = sha256 m2 := by
  unfold digestFin at h
  rw [Fin.mk.injEq] at h
  exact natOfBytes_inj _ _ (sha256_lt m1) (sha256_lt m2)
    (by rw [sha256_length, sha256_length]) h

/-- A string of `n` letters `a`. -/
def mkA (n : Nat) : String := String.mk (List.replicate n 'a')

/-- The dash-joined hash input, in characters. -/
theorem kidInput_data (kty crv x y : String) :
    (kidInput kty crv x y).data =
      kty.data ++ '-' :: (crv.data ++ '-' :: (x.data ++ '-' :: y.data)) := by
  have hd : ("-" : String).data = ['-'] := rfl
  simp only [kidInput, strDataAppend, hd, List.append_assoc, List.singleton_append,
    List.cons_append, List.nil_append]

/-! ## Claim theorems -/

/-- Claim C1: a successful JWK provisioner run writes a JWKS whose `keys`
array has exactly one entry, that entry has no private `d` component (given
that the public-key export has none), and the entry is exactly the public
key's export with kid, alg and use attached. -/
theorem C1_jwks_single_public_key (dirname : String) (pub priv : Jwk) (pem : String)
    (hd : jwkLookup pub "d" = none) :
    (runJWK dirname pub priv pem).jwksKeys.length = 1 ∧
    (∀ j ∈ (runJWK dirname pub priv pem).jwksKeys, jwkLookup j "d" = none) ∧
    (runJWK dirname pub priv pem).jwksKeys =
      [setField (setField (setField pub "kid" (generateKid pub)) "alg" "ES256") "use" "sig"] := by
  have e : (runJWK dirname pub priv pem).jwksKeys =
      [setField (setField (setField pub "kid" (generateKid pub)) "alg" "ES256") "use" "sig"] := rfl
  refine ⟨rfl, ?_, e⟩
  intro j hj
  rw [e, List.mem_singleton] at hj
  subst hj
  rw [jwkLookup_setField_ne _ _ _ _ (by decide), jwkLookup_setField_ne _ _ _ _ (by decide),
    jwkLookup_setField_ne _ _ _ _ (by decide), hd]

/-- Claim C1 witness: the invariant at a concrete public EC JWK export. -/
theorem C1_witness :
    jwkLookup ([("kty", "EC"), ("crv", "P-256"), ("x", "ab"), ("y", "cd")] : Jwk) "d" = none ∧
    (runJWK "/app" [("kty", "EC"), ("crv", "P-256"), ("x", "ab"), ("y", "cd")]
      [("kty", "EC"), ("crv", "P-256"), ("x", "ab"), ("y", "cd"), ("d", "secret")]
      "PEM").jwksKeys.length = 1 ∧
    (∀ j ∈ (runJWK "/app" [("kty", "EC"), ("crv", "P-256"), ("x", "ab"), ("y", "cd")]
      [("kty", "EC"), ("crv", "P-256"), ("x", "ab"), ("y", "cd"), ("d", "secret")]
      "PEM").jwksKeys, jwkLookup j "d" = none) :=
  ⟨by decide,
   (C1_jwks_single_public_key "/app" _ _ "PEM" (by decide)).1,
   (C1_jwks_single_public_key "/app" _ _ "PEM" (by decide)).2.1⟩

/-- Claim C4: `generateKid` returns the unpadded URL-safe base64 encoding of
the SHA-256 hash of the kty, crv, x and y components concatenated with the
fixed delimiter `-`. -/
theorem C4_kid_construction (j : Jwk) (kty crv x y : String)
    (h1 : jwkGet j "kty" = kty) (h2 : jwkGet j "crv" = crv)
    (h3 : jwkGet j "x" = x) (h4 : jwkGet j "y" = y) :
    generateKid j =
      base64urlNoPad (sha256 (utf8Encode (kty ++ "-" ++ crv ++ "-" ++ x ++ "-" ++ y))) := by
  unfold generateKid kidOf kidInput
  rw [h1, h2, h3, h4]

/-- Claim C4 witness: the kid of a concrete JWK, with the hash input spelled
out and the digest checked against an independently computed value. -/
theorem C4_witness :
    jwkGet ([("kty", "EC"), ("crv", "P-256"), ("x", "ab"), ("y", "cd")] : Jwk) "kty" = "EC" ∧
    jwkGet ([("kty", "EC"), ("crv", "P-256"), ("x", "ab"), ("y", "cd")] : Jwk) "crv" = "P-256" ∧
    jwkGet ([("kty", "EC"), ("crv", "P-256"), ("x", "ab"), ("y", "cd")] : Jwk) "x" = "ab" ∧
    jwkGet ([("kty", "EC"), ("crv", "P-256"), ("x", "ab"), ("y", "cd")] : Jwk) "y" = "cd" ∧
    generateKid ([("kty", "EC"), ("crv", "P-256"), ("x", "ab"), ("y", "cd")] : Jwk) =
      base64urlNoPad (sha256 (utf8Encode ("EC" ++ "-" ++ "P-256" ++ "-" ++ "ab" ++ "-" ++ "cd"))) ∧
    generateKid ([("kty", "EC"), ("crv", "P-256"), ("x", "ab"), ("y", "cd")] : Jwk) =
      "1IvzP7eH6JCx2lf8vMPOFvmZuly6WEwCc0M2knvcv1U" :=
  ⟨by decide, by decide, by decide, by decide,
   C4_kid_construction _ "EC" "P-256" "ab" "cd" (by decide) (by decide) (by decide) (by decide),
   by decide⟩

/-- Claim C5 counterexample: the second half of the claim (changing one
component always changes the kid) is false for the code's 256-bit hash:
infinitely many `kty` values map into finitely many digests, so two distinct
`kty` values share a kid with the other three components fixed. -/
theorem C5_counterexample :
    ∃ kty kty' : String, kty ≠ kty' ∧ kidOf kty "c" "x" "y" = kidOf kty' "c" "x" "y" := by
  obtain ⟨m, n, hmn, hf⟩ := Finite.exists_ne_map_eq_of_infinite
    fun k : ℕ => digestFin (utf8Encode (kidInput (mkA k) "c" "x" "y"))
  refine ⟨mkA m, mkA n, ?_, ?_⟩
  · intro he
    apply hmn
    have hlen := congrArg (fun s => s.data.length) he
    simpa [mkA] using hlen
  · unfold kidOf
    rw [sha256_eq_of_digestFin_eq hf]

/-- Claim C5, amended: `generateKid` is deterministic in the four components
(whatever the field order or extra fields of the JWK), and changing any one
of the four components changes the hash input string, so the kids differ
unless SHA-256 collides on the two distinct inputs. -/
theorem C5_kid_determinism_amended :
    (∀ j1 j2 : Jwk, jwkGet j1 "kty" = jwkGet j2 "kty" → jwkGet j1 "crv" = jwkGet j2 "crv" →
      jwkGet j1 "x" = jwkGet j2 "x" → jwkGet j1 "y" = jwkGet j2 "y" →
      generateKid j1 = generateKid j2) ∧
    (∀ kty kty' crv x y : String, kty ≠ kty' →
      kidInput kty crv x y ≠ kidInput kty' crv x y) ∧
    (∀ kty crv crv' x y : String, crv ≠ crv' →
      kidInput kty crv x y ≠ kidInput kty crv' x y) ∧
    (∀ kty crv x x' y : String, x ≠ x' →
      kidInput kty crv x y ≠ kidInput kty crv x' y) ∧
    (∀ kty crv x y y' : String, y ≠ y' →
      kidInput kty crv x y ≠ kidInput kty crv x y') := by
  refine ⟨?_, ?_, ?_, ?_, ?_⟩
  · intro j1 j2 h1 h2 h3 h4
    unfold generateKid
    rw [h1, h2, h3, h4]
  · intro kty kty' crv x y hne he
    have hd := congrArg String.data he
    rw [kidInput_data, kidInput_data] at hd
    exact hne (strExt (app_cancel_right _ _ _ hd))
  · intro kty crv crv' x y hne he
    have hd := congrArg String.data he
    rw [kidInput_data, kidInput_data] at hd
    have h1 := app_cancel_left _ _ _ hd
    injection h1 with _ h2
    exact hne (strExt (app_cancel_right _ _ _ h2))
  · intro kty crv x x' y hne he
    have hd := congrArg String.data he
    rw [kidInput_data, kidInput_data] at hd
    have h1 := app_cancel_left _ _ _ hd
    injection h1 with _ h2
    have h3 := app_cancel_left _ _ _ h2
    injection h3 with _ h4
    exact hne (strExt (app_cancel_right _ _ _ h4))
  · intro kty crv x y y' hne he
    have hd := congrArg String.data he
    rw [kidInput_data, kidInput_data] at hd
    have h1 := app_cancel_left _ _ _ hd
    injection h1 with _ h2
    have h3 := app_cancel_left _ _ _ h2
    injection h3 with _ h4
    have h5 := app_cancel_left _ _ _ h4
    injection h5 with _ h6
    exact hne (strExt h6)

/-- Claim C5 witness: determinism across two differently ordered JWKs with an
extra field, and a concrete one-component change altering the hash input. -/
theorem C5_witness :
    generateKid ([("kty", "EC"), ("crv", "P-256"), ("x", "ab"), ("y", "cd")] : Jwk) =
      generateKid ([("crv", "P-256"), ("y", "cd"), ("x", "ab"), ("kty", "EC"),
        ("kid", "stale")] : Jwk) ∧
    kidInput "EC" "P-256" "ab" "cd" ≠ kidInput "EC" "P-256" "ab" "ce" :=
  ⟨C5_kid_determinism_amended.1 _ _ (by decide) (by decide) (by decide) (by decide),
   C5_kid_determinism_amended.2.2.2.2 "EC" "P-256" "ab" "cd" "ce" (by decide)⟩

/-- Claim C2 counterexample: for a CN value containing a newline followed by
an extra DNS line, the `[alt_names]` section of the generated configuration
has four entries, not three. -/
theorem C2_counterexample :
    (altNamesEntries
      (generateOpenSSLConfig "a\nDNS.3 = evil.example" "localhost" "127.0.0.1")).length = 4 ∧
    altNamesEntries (generateOpenSSLConfig "a\nDNS.3 = evil.example" "localhost" "127.0.0.1") =
      ["DNS.1 = a".data, "DNS.3 = evil.example".data, "DNS.2 = localhost".data,
       "IP.1 = 127.0.0.1".data] := by
  constructor <;> decide

/-- Claim C2, amended to newline-free configuration values: the generated
configuration's `[v3_req]` section declares exactly
`basicConstraints = CA:FALSE`, `keyUsage = digitalSignature, keyEncipherment`,
`extendedKeyUsage = serverAuth, clientAuth` and `subjectAltName = @alt_names`,
and its `[alt_names]` section contains exactly the three entries
`DNS.1 = CN`, `DNS.2 = SAN_DNS`, `IP.1 = SAN_IP`, in that order. -/
theorem C2_signing_config_amended (cn sd si : String)
    (hcn : '\n' ∉ cn.data) (hsd : '\n' ∉ sd.data) (hsi : '\n' ∉ si.data) :
    altNamesEntries (generateOpenSSLConfig cn sd si) =
      ["DNS.1 = ".data ++ cn.data, "DNS.2 = ".data ++ sd.data, "IP.1 = ".data ++ si.data] ∧
    v3ReqEntries (generateOpenSSLConfig cn sd si) =
      ["basicConstraints = CA:FALSE".data,
       "keyUsage = digitalSignature, keyEncipherment".data,
       "extendedKeyUsage = serverAuth, clientAuth".data,
       "subjectAltName = @alt_names".data] := by
  have hlines := generateOpenSSLConfig_lines cn sd si hcn hsd hsi
  have hCNhead : "CN = ".data = 'C' :: "N = ".data := rfl
  have hD1 : "DNS.1 = ".data = 'D' :: "NS.1 = ".data := rfl
  have hD2 : "DNS.2 = ".data = 'D' :: "NS.2 = ".data := rfl
  have hI1 : "IP.1 = ".data = 'I' :: "P.1 = ".data := rfl
  have hAlt : "[alt_names]".data = '[' :: "alt_names]".data := rfl
  have hV3 : "[v3_req]".data = '[' :: "v3_req]".data := rfl
  have hne1 : ("CN = ".data ++ cn.data) ≠ "[alt_names]".data := by
    rw [hCNhead, hAlt, List.cons_append]
    exact ne_of_head _ _ (by decide)
  have hne2 : ("CN = ".data ++ cn.data) ≠ "[v3_req]".data := by
    rw [hCNhead, hV3, List.cons_append]
    exact ne_of_head _ _ (by decide)
  obtain ⟨hh16, he16⟩ := head_of_lit_append 'D' "DNS.1 = ".data cn.data hD1
  obtain ⟨hh17, he17⟩ := head_of_lit_append 'D' "DNS.2 = ".data sd.data hD2
  obtain ⟨hh18, he18⟩ := head_of_lit_append 'I' "IP.1 = ".data si.data hI1
  constructor
  · unfold altNamesEntries sectionEntries
    rw [hlines]
    exact altNames_of_lines _ _ _ _ hne1 (by rw [hh16]; decide) (by rw [hh17]; decide)
      (by rw [hh18]; decide) he16 he17 he18
  · unfold v3ReqEntries sectionEntries
    rw [hlines]
    exact v3Req_of_lines _ _ _ _ hne2

/-- Claim C2 witness: the amended statement at the default configuration. -/
theorem C2_witness :
    '\n' ∉ ("internal-service" : String).data ∧
    '\n' ∉ ("localhost" : String).data ∧
    '\n' ∉ ("127.0.0.1" : String).data ∧
    altNamesEntries (generateOpenSSLConfig "internal-service" "localhost" "127.0.0.1") =
      ["DNS.1 = ".data ++ ("internal-service" : String).data,
       "DNS.2 = ".data ++ ("localhost" : String).data,
       "IP.1 = ".data ++ ("127.0.0.1" : String).data] :=
  ⟨by decide, by decide, by decide,
   (C2_signing_config_amended "internal-service" "localhost" "127.0.0.1"
     (by decide) (by decide) (by decide)).1⟩

/-- Claim C10: `generateOpenSSLConfig` embeds the CN, SAN_DNS and SAN_IP
values verbatim between the fixed template chunks, with no escaping or
validation, and for a CN containing a newline plus an extra DNS line the
`[alt_names]` section has more than three entries. -/
theorem C10_injection :
    (∀ cn sd si : String, (generateOpenSSLConfig cn sd si).data =
      ("[req]\ndistinguished_name = req_distinguished_name\nx509_extensions = v3_req\nprompt = no\n\n[req_distinguished_name]\nCN = " : String).data
        ++ cn.data
        ++ (("\n\n[v3_req]\nbasicConstraints = CA:FALSE\nkeyUsage = digitalSignature, keyEncipherment\nextendedKeyUsage = serverAuth, clientAuth\nsubjectAltName = @alt_names\n\n[alt_names]\nDNS.1 = " : String).data
        ++ cn.data
        ++ (("\nDNS.2 = " : String).data
        ++ sd.data
        ++ (("\nIP.1 = " : String).data
        ++ si.data
        ++ ("\n" : String).data)))) ∧
    3 < (altNamesEntries
      (generateOpenSSLConfig "a\nDNS.3 = evil.example" "localhost" "127.0.0.1")).length := by
  constructor
  · intro cn sd si
    simp only [generateOpenSSLConfig, strDataAppend, List.append_assoc]
  · decide

/-- Claim C3 counterexample: with `KEY_DIR=custom`, the JWK provisioner still
writes its two files under the hard-coded `keys` directory, not under the
directory KEY_DIR determines. -/
theorem C3_counterexample :
    (runJWK "/app" [] [] "").files =
      [("/app/keys", "jwks.json"), ("/app/keys", "jwks-private-key.pem")] ∧
    pathResolve "/app" ((some "custom" : Option String).getD "keys") = "/app/custom" ∧
    ("/app/keys" : String) ≠ "/app/custom" := by
  refine ⟨rfl, by decide, by decide⟩

/-- Claim C3, amended: `KEY_DIR` (default `keys`) determines the output
directory of the TLS provisioner's files only; the JWK provisioner always
writes `jwks.json` and `jwks-private-key.pem` under the fixed script-relative
`keys` directory, ignoring `KEY_DIR`. With no override the two coincide. -/
theorem C3_key_dir_amended (dirname origDir : String) (exec : String → Except String String)
    (envKeyDir envCN envSanDns envSanIp : Option String) (pub priv : Jwk) (pem : String) :
    (∀ f ∈ (runTLS dirname origDir exec envKeyDir envCN envSanDns envSanIp).files,
      f.1 = pathResolve dirname (envKeyDir.getD "keys")) ∧
    (∀ f ∈ (runJWK dirname pub priv pem).files, f.1 = pathJoin dirname "keys") ∧
    pathResolve dirname ((none : Option String).getD "keys") = pathJoin dirname "keys" := by
  refine ⟨?_, ?_, ?_⟩
  · unfold runTLS
    dsimp only
    repeat' split
    all_goals simp
  · intro f hf
    have e : (runJWK dirname pub priv pem).files =
        [(pathJoin dirname "keys", "jwks.json"),
         (pathJoin dirname "keys", "jwks-private-key.pem")] := rfl
    rw [e] at hf
    simp only [List.mem_cons, List.not_mem_nil, or_false] at hf
    rcases hf with rfl | rfl
    · rfl
    · rfl
  · unfold pathResolve pathJoin
    rw [if_neg (by decide)]
    rfl

/-- Claim C3 witness: concrete instantiation with `KEY_DIR=custom`; the first
TLS file lands under `/app/custom`. -/
theorem C3_witness :
    (("/app/custom", "tls-ca-key.pem") ∈
      (runTLS "/app" "/root" (fun _ => Except.ok "") (some "custom") none none none).files) ∧
    ("/app/custom", "tls-ca-key.pem").1 =
      pathResolve "/app" ((some "custom" : Option String).getD "keys") :=
  ⟨by decide,
   (C3_key_dir_amended "/app" "/root" (fun _ => Except.ok "") (some "custom") none none none
     [] [] "").1 ("/app/custom", "tls-ca-key.pem") (by decide)⟩

/-- Claim C6 counterexample: when the passphrase-generation invocation
(`openssl rand -base64 16`, run through raw `execSync`, not
`executeCommand`) fails, the run aborts with exit 1 but the only message
logged is the generic one — no message naming a step description is logged,
since every description message starts `❌ Failed to `. -/
theorem C6_counterexample :
    (runTLS "/app" "/root" (fun c => if c = tlsCmdRand then Except.error "boom" else Except.ok "")
      none none none none).logs = ["❌ Error generating TLS certificates: boom"] ∧
    (runTLS "/app" "/root" (fun c => if c = tlsCmdRand then Except.error "boom" else Except.ok "")
      none none none none).exit = some 1 ∧
    (runTLS "/app" "/root" (fun c => if c = tlsCmdRand then Except.error "boom" else Except.ok "")
      none none none none).cmds = [tlsCmdGenCaKey, tlsCmdGenCaCert, tlsCmdRand] ∧
    (∀ d m : String,
      "❌ Error generating TLS certificates: boom" ≠ "❌ Failed to " ++ d ++ ": " ++ m) := by
  refine ⟨by decide, by decide, by decide, ?_⟩
  intro d m he
  have hd := congrArg String.data he
  have e1 : ("❌ Error generating TLS certificates: boom" : String).data =
      '❌' :: ' ' :: 'E' :: ("rror generating TLS certificates: boom" : String).data := rfl
  have e2 : ("❌ Failed to " : String).data =
      '❌' :: ' ' :: 'F' :: ("ailed to " : String).data := rfl
  rw [e1, strDataAppend, strDataAppend, strDataAppend, e2] at hd
  simp only [List.cons_append, List.append_assoc] at hd
  injection hd with _ hd
  injection hd with _ hd
  injection hd with hEF _
  exact absurd hEF (by decide)

/-- Claim C6, amended: a failing toolchain invocation aborts the run at once —
the executed commands are exactly the prefix ending at the failing one, with
no retry and no later step — and the process exits 1 after logging the
generic error message; the five `executeCommand`-wrapped steps additionally
log `❌ Failed to <description>: <message>`, while the raw passphrase
invocation logs only the generic message. -/
theorem C6_failure_semantics_amended (dirname origDir : String)
    (exec : String → Except String String) (kd cn sd si : Option String) :
    (∀ e, exec tlsCmdGenCaKey = Except.error e →
      runTLS dirname origDir exec kd cn sd si =
        ⟨[tlsCmdGenCaKey],
         ["❌ Failed to generate CA private key: " ++ e,
          "❌ Error generating TLS certificates: " ++ e],
         [], none, pathResolve dirname (kd.getD "keys"), some 1⟩) ∧
    (∀ o1 e, exec tlsCmdGenCaKey = Except.ok o1 → exec tlsCmdGenCaCert = Except.error e →
      runTLS dirname origDir exec kd cn sd si =
        ⟨[tlsCmdGenCaKey, tlsCmdGenCaCert],
         ["❌ Failed to generate CA certificate: " ++ e,
          "❌ Error generating TLS certificates: " ++ e],
         [(pathResolve dirname (kd.getD "keys"), "tls-ca-key.pem")],
         none, pathResolve dirname (kd.getD "keys"), some 1⟩) ∧
    (∀ o1 o2 e, exec tlsCmdGenCaKey = Except.ok o1 → exec tlsCmdGenCaCert = Except.ok o2 →
      exec tlsCmdRand = Except.error e →
      runTLS dirname origDir exec kd cn sd si =
        ⟨[tlsCmdGenCaKey, tlsCmdGenCaCert, tlsCmdRand],
         ["❌ Error generating TLS certificates: " ++ e],
         [(pathResolve dirname (kd.getD "keys"), "tls-ca-key.pem"),
          (pathResolve dirname (kd.getD "keys"), "tls-ca-cert.pem")],
         none, pathResolve dirname (kd.getD "keys"), some 1⟩) ∧
    (∀ o1 o2 o3 e, exec tlsCmdGenCaKey = Except.ok o1 → exec tlsCmdGenCaCert = Except.ok o2 →
      exec tlsCmdRand = Except.ok o3 →
      exec (tlsCmdGenServiceKey o3.trim) = Except.error e →
      runTLS dirname origDir exec kd cn sd si =
        ⟨[tlsCmdGenCaKey, tlsCmdGenCaCert, tlsCmdRand, tlsCmdGenServiceKey o3.trim],
         ["❌ Failed to generate encrypted service private key: " ++ e,
          "❌ Error generating TLS certificates: " ++ e],
         [(pathResolve dirname (kd.getD "keys"), "tls-ca-key.pem"),
          (pathResolve dirname (kd.getD "keys"), "tls-ca-cert.pem"),
          (pathResolve dirname (kd.getD "keys"), "tls-shared-key-passphrase.txt")],
         none, pathResolve dirname (kd.getD "keys"), some 1⟩) ∧
    (∀ o1 o2 o3 o4 e, exec tlsCmdGenCaKey = Except.ok o1 → exec tlsCmdGenCaCert = Except.ok o2 →
      exec tlsCmdRand = Except.ok o3 →
      exec (tlsCmdGenServiceKey o3.trim) = Except.ok o4 →
      exec (tlsCmdCsr (cn.getD "internal-service") o3.trim) = Except.error e →
      runTLS dirname origDir exec kd cn sd si =
        ⟨[tlsCmdGenCaKey, tlsCmdGenCaCert, tlsCmdRand, tlsCmdGenServiceKey o3.trim,
          tlsCmdCsr (cn.getD "internal-service") o3.trim],
         ["❌ Failed to create certificate signing request: " ++ e,
          "❌ Error generating TLS certificates: " ++ e],
         [(pathResolve dirname (kd.getD "keys"), "tls-ca-key.pem"),
          (pathResolve dirname (kd.getD "keys"), "tls-ca-cert.pem"),
          (pathResolve dirname (kd.getD "keys"), "tls-shared-key-passphrase.txt"),
          (pathResolve dirname (kd.getD "keys"), "tls-shared-key.pem"),
          (pathResolve dirname (kd.getD "keys"), "openssl.cnf")],
         some (generateOpenSSLConfig (cn.getD "internal-service") (sd.getD "localhost")
           (si.getD "127.0.0.1")),
         pathResolve dirname (kd.getD "keys"), some 1⟩) ∧
    (∀ o1 o2 o3 o4 o5 e, exec tlsCmdGenCaKey = Except.ok o1 →
      exec tlsCmdGenCaCert = Except.ok o2 → exec tlsCmdRand = Except.ok o3 →
      exec (tlsCmdGenServiceKey o3.trim) = Except.ok o4 →
      exec (tlsCmdCsr (cn.getD "internal-service") o3.trim) = Except.ok o5 →
      exec tlsCmdSign = Except.error e →
      runTLS dirname origDir exec kd cn sd si =
        ⟨[tlsCmdGenCaKey, tlsCmdGenCaCert, tlsCmdRand, tlsCmdGenServiceKey o3.trim,
          tlsCmdCsr (cn.getD "internal-service") o3.trim, tlsCmdSign],
         ["❌ Failed to sign service certificate: " ++ e,
          "❌ Error generating TLS certificates: " ++ e],
         [(pathResolve dirname (kd.getD "keys"), "tls-ca-key.pem"),
          (pathResolve dirname (kd.getD "keys"), "tls-ca-cert.pem"),
          (pathResolve dirname (kd.getD "keys"), "tls-shared-key-passphrase.txt"),
          (pathResolve dirname (kd.getD "keys"), "tls-shared-key.pem"),
          (pathResolve dirname (kd.getD "keys"), "openssl.cnf"),
          (pathResolve dirname (kd.getD "keys"), "tls-shared.csr")],
         some (generateOpenSSLConfig (cn.getD "internal-service") (sd.getD "localhost")
           (si.getD "127.0.0.1")),
         pathResolve dirname (kd.getD "keys"), some 1⟩) := by
  refine ⟨?_, ?_, ?_, ?_, ?_, ?_⟩
  · intro e h1
    simp [runTLS, h1]
  · intro o1 e h1 h2
    simp [runTLS, h1, h2]
  · intro o1 o2 e h1 h2 h3
    simp [runTLS, h1, h2, h3]
  · intro o1 o2 o3 e h1 h2 h3 h4
    simp [runTLS, h1, h2, h3, h4]
  · intro o1 o2 o3 o4 e h1 h2 h3 h4 h5
    simp [runTLS, h1, h2, h3, h4, h5]
  · intro o1 o2 o3 o4 o5 e h1 h2 h3 h4 h5 h6
    simp [runTLS, h1, h2, h3, h4, h5, h6]

/-- Claim C6 witness: the failure semantics at a concrete environment whose
first invocation fails. -/
theorem C6_witness :
    ((fun c => if c = tlsCmdGenCaKey then Except.error "boom" else Except.ok "")
      tlsCmdGenCaKey = Except.error "boom") ∧
    runTLS "/app" "/root"
      (fun c => if c = tlsCmdGenCaKey then Except.error "boom" else Except.ok "")
      none none none none =
      ⟨[tlsCmdGenCaKey],
       ["❌ Failed to generate CA private key: boom",
        "❌ Error generating TLS certificates: boom"],
       [], none, pathResolve "/app" ((none : Option String).getD "keys"), some 1⟩ :=
  ⟨rfl,
   (C6_failure_semantics_amended "/app" "/root"
     (fun c => if c = tlsCmdGenCaKey then Except.error "boom" else Except.ok "")
     none none none none).1 "boom" rfl⟩

/-- Claim C7: the working directory is NOT restored on the failure path —
`chdir(originalDir)` runs only at the end of the `try` block, so when a step
fails the process exits 1 with the working directory still the key
directory; only the success path restores it. Evaluated at a failing input. -/
theorem C7_cwd_not_restored_on_failure :
    (runTLS "/app" "/root" (fun c => if c = tlsCmdGenCaKey then Except.error "boom" else Except.ok "")
      none none none none).cwd = "/app/keys" ∧
    (runTLS "/app" "/root" (fun c => if c = tlsCmdGenCaKey then Except.error "boom" else Except.ok "")
      none none none none).exit = some 1 ∧
    ("/app/keys" : String) ≠ "/root" ∧
    (runTLS "/app" "/root" (fun _ => Except.ok "") none none none none).cwd = "/root" := by
  refine ⟨by decide, by decide, by decide, by decide⟩

/-- Claim C8 counterexample: the CA certificate's Common Name equals the
service certificate's Common Name when the CN environment variable is set to
`internal-ca`, so the two are not distinct for every configuration. -/
theorem C8_counterexample :
    extractSubjCN tlsCmdGenCaCert = some (serviceCommonName (some "internal-ca")) ∧
    extractSubjCN (tlsCmdCsr (serviceCommonName (some "internal-ca")) "p") =
      some (serviceCommonName (some "internal-ca")) := by
  constructor <;> decide

/-- Claim C8, amended: the CA certificate's Common Name is the fixed
`internal-ca`, its command mentions no configuration or extension file (so no
SANs are applied), and it is distinct from the service Common Name whenever
the CN environment variable does not itself name `internal-ca`. -/
theorem C8_ca_identity_amended :
    extractSubjCN tlsCmdGenCaCert = some "internal-ca" ∧
    containsSub "-config".data tlsCmdGenCaCert.data = false ∧
    containsSub "-extfile".data tlsCmdGenCaCert.data = false ∧
    containsSub "[alt_names]".data tlsCmdGenCaCert.data = false ∧
    (∀ envCN : Option String, serviceCommonName envCN ≠ "internal-ca" →
      extractSubjCN tlsCmdGenCaCert ≠ some (serviceCommonName envCN)) := by
  refine ⟨by decide, by decide, by decide, by decide, ?_⟩
  intro envCN hne he
  rw [show extractSubjCN tlsCmdGenCaCert = some "internal-ca" from by decide] at he
  injection he with hv
  exact hne hv.symm

/-- Claim C8 witness: the amended distinctness at the default configuration. -/
theorem C8_witness :
    serviceCommonName none ≠ "internal-ca" ∧
    extractSubjCN tlsCmdGenCaCert ≠ some (serviceCommonName none) :=
  ⟨by decide, C8_ca_identity_amended.2.2.2.2 none (by decide)⟩

/-- Claim C9: a successful run of both provisioners under the default
configuration writes exactly the nine contracted files — seven TLS artifacts
then the two JWK artifacts — all in the shared `keys` output directory
(command file effects modelled by their `-out` flags). -/
theorem C9_output_files (dirname origDir : String) (exec : String → Except String String)
    (pub priv : Jwk) (pem : String) (hok : ∀ c, ∃ o, exec c = Except.ok o) :
    (runTLS dirname origDir exec none none none none).files ++
      (runJWK dirname pub priv pem).files =
      [(pathResolve dirname "keys", "tls-ca-key.pem"),
       (pathResolve dirname "keys", "tls-ca-cert.pem"),
       (pathResolve dirname "keys", "tls-shared-key-passphrase.txt"),
       (pathResolve dirname "keys", "tls-shared-key.pem"),
       (pathResolve dirname "keys", "openssl.cnf"),
       (pathResolve dirname "keys", "tls-shared.csr"),
       (pathResolve dirname "keys", "tls-shared-cert.pem"),
       (pathJoin dirname "keys", "jwks.json"),
       (pathJoin dirname "keys", "jwks-private-key.pem")] ∧
    pathResolve dirname "keys" = pathJoin dirname "keys" := by
  obtain ⟨o1, h1⟩ := hok tlsCmdGenCaKey
  obtain ⟨o2, h2⟩ := hok tlsCmdGenCaCert
  obtain ⟨o3, h3⟩ := hok tlsCmdRand
  obtain ⟨o4, h4⟩ := hok (tlsCmdGenServiceKey o3.trim)
  obtain ⟨o5, h5⟩ := hok (tlsCmdCsr "internal-service" o3.trim)
  obtain ⟨o6, h6⟩ := hok tlsCmdSign
  constructor
  · simp [runTLS, runJWK, h1, h2, h3, h4, h5, h6]
  · unfold pathResolve pathJoin
    rw [if_neg (by decide)]

/-- Claim C9 witness: the nine files at a concrete always-succeeding
environment. -/
theorem C9_witness :
    (runTLS "/app" "/root" (fun _ => Except.ok "") none none none none).files ++
      (runJWK "/app" [] [] "").files =
      [(pathResolve "/app" "keys", "tls-ca-key.pem"),
       (pathResolve "/app" "keys", "tls-ca-cert.pem"),
       (pathResolve "/app" "keys", "tls-shared-key-passphrase.txt"),
       (pathResolve "/app" "keys", "tls-shared-key.pem"),
       (pathResolve "/app" "keys", "openssl.cnf"),
       (pathResolve "/app" "keys", "tls-shared.csr"),
       (pathResolve "/app" "keys", "tls-shared-cert.pem"),
       (pathJoin "/app" "keys", "jwks.json"),
       (pathJoin "/app" "keys", "jwks-private-key.pem")] :=
  (C9_output_files "/app" "/root" (fun _ => Except.ok "") [] [] ""
    (fun _ => ⟨"", rfl⟩)).1
